import Mathlib

/-!
Shallow embedding of `src/migration.py` (and the shared detector of
`src/pre_migration.py`): a batch tool that mirrors GitHub repositories into a
target organization, optionally injecting a CI workflow template chosen from
the detected build systems, and recording a de-duplicated migration ledger.

Python strings are modelled as Lean `String`; the Python string operations the
source uses (`in`, `split`, `strip`, `rstrip`, `replace`, `join`) are given
explicit executable definitions matching Python semantics (in particular
`rstrip` strips a character *set*, not a suffix).  Python truthiness of an
optional string (`None` and `""` are falsy) is `truthy`.  External effects
(GitHub API calls, `git` subprocesses) are modelled by an `Env` oracle saying
what each effectful step would do; an uncaught Python exception is an
`Except.error` carrying the state of the two durable log files at the moment
of the crash.
-/

/-- Predicate `listStartsWith s pat` : `pat` is a (character) prefix of `s`. -/
def listStartsWith : List Char → List Char → Bool
  | _, [] => true
  | [], _ :: _ => false
  | a :: as, b :: bs => a == b && listStartsWith as bs

/-- Predicate `listContains s pat` : `pat` occurs as a contiguous sublist of `s`. -/
def listContains : List Char → List Char → Bool
  | [], pat => pat.isEmpty
  | s@(_ :: rest), pat => listStartsWith s pat || listContains rest pat

/-- Python `sub in s` (substring containment; the empty string is in every string). -/
def pyIn (sub s : String) : Bool := listContains s.data sub.data

/-- Python whitespace for `str.strip()`. -/
def isPyWhitespace (c : Char) : Bool :=
  c == ' ' || c == '\t' || c == '\n' || c == '\r' || c == '\x0b' || c == '\x0c'

/-- Python `s.strip()`: drop whitespace from both ends. -/
def pyStrip (s : String) : String :=
  String.mk (((s.data.dropWhile isPyWhitespace).reverse.dropWhile isPyWhitespace).reverse)

/-- Python `s.rstrip(chars)`: drop from the right every character that is a
member of the character *set* `chars` (NOT suffix removal). -/
def pyRstrip (s chars : String) : String :=
  String.mk ((s.data.reverse.dropWhile (fun c => chars.data.contains c)).reverse)

/-- Worker for `pySplit`: scans left to right; `skip` counts separator
characters still to be consumed after a match. -/
def pySplitGo (sep : List Char) : List Char → List Char → Nat → List (List Char)
  | [], acc, _ => [acc.reverse]
  | _ :: rest, acc, k + 1 => pySplitGo sep rest acc k
  | c :: rest, acc, 0 =>
      if listStartsWith (c :: rest) sep && !sep.isEmpty then
        acc.reverse :: pySplitGo sep rest [] (sep.length - 1)
      else pySplitGo sep rest (c :: acc) 0

/-- Python `s.split(sep)` for a non-empty separator (non-overlapping,
left-to-right; `"".split(sep) = [""]`). -/
def pySplit (s sep : String) : List String :=
  (pySplitGo sep.data s.data [] 0).map String.mk

/-- Worker for `pyReplace` with the same skip discipline as `pySplitGo`. -/
def pyReplaceGo (pat rep : List Char) : List Char → Nat → List Char
  | [], _ => []
  | _ :: rest, k + 1 => pyReplaceGo pat rep rest k
  | c :: rest, 0 =>
      if listStartsWith (c :: rest) pat && !pat.isEmpty then
        rep ++ pyReplaceGo pat rep rest (pat.length - 1)
      else c :: pyReplaceGo pat rep rest 0

/-- Python `s.replace(pat, rep)` (all non-overlapping occurrences, for a
non-empty pattern). -/
def pyReplace (s pat rep : String) : String :=
  String.mk (pyReplaceGo pat.data rep.data s.data 0)

/-- Python `sep.join(xs)`. -/
def pyJoin (sep : String) : List String → String
  | [] => ""
  | [x] => x
  | x :: xs => x ++ sep ++ pyJoin sep xs

/-- Python truthiness of an optional string: `None` and `""` are falsy. -/
def truthy : Option String → Bool
  | none => false
  | some s => !s.isEmpty

/-- The indicator map of `migration.py` lines 30-51: an insertion-ordered
Python dict, modelled as an ordered association list tag ↦ indicator fragment. -/
def build_systems : List (String × String) := [
  ("maven", "pom.xml"),
  ("gradle", "build.gradle"),
  ("npm", "package.json"),
  ("yarn", "yarn.lock"),
  ("make", "Makefile"),
  ("cmake", "CMakeLists.txt"),
  ("bazel", "BUILD"),
  ("go", "go.mod"),
  ("rust", "Cargo.toml"),
  ("python_setuptools", "setup.py"),
  ("python_pip", "requirements.txt"),
  ("python_pyproject", "pyproject.toml"),
  ("ruby_bundler", "Gemfile"),
  ("ruby_gem", ".gemspec"),
  ("dotNET_CS", ".csproj"),
  ("dotNET_VB", ".vbproj"),
  ("dotNET_FS", ".fsproj"),
  ("dotNET_Solution", ".sln"),
  ("dotNET_SDK", "global.json"),
  ("dotNET_NuGet", "packages.config")]

/-- The detection loop of `detect_language_and_build_system` (lines 76-79),
generic in the indicator map: for each (tag, indicator) pair in map order,
append the tag if the indicator occurs as a substring of some file name. -/
def detect_build_systems_with (indicators : List (String × String))
    (repo_files : List String) : List String :=
  List.foldl
    (fun acc p => if repo_files.any (fun file => pyIn p.2 file) then acc ++ [p.1] else acc)
    [] indicators

/-- Detection against the fixed indicator map of `migration.py`. -/
def detect_build_systems (repo_files : List String) : List String :=
  detect_build_systems_with build_systems repo_files

/-- What the GitHub API returns for a source repository when fetching
succeeds: `repo.language` (may be `None`) and the top-level content listing. -/
structure RepoData where
  language : Option String
  files : List String

/-- The sentinel string of line 81 for an empty detection result. -/
def sentinel_no_build : String := "No common build system detected."

/-- Model of `detect_language_and_build_system` (lines 67-86): on a fetch error the
`except` branch returns `(None, None)`; otherwise the primary language and the
comma-joined detected build systems, or the sentinel when none matched. -/
def detect_language_and_build_system (fetched : Option RepoData) :
    Option String × Option String :=
  match fetched with
  | none => (none, none)
  | some d =>
      let detected := detect_build_systems d.files
      let bs := if detected.isEmpty then sentinel_no_build else pyJoin ", " detected
      (d.language, some bs)

/-- One row of `migration_summary.csv` (the migration ledger). -/
structure MigrationRecord where
  source_github_url : String
  target_github_url : String
  migrated_with_workflow_file : Bool
deriving DecidableEq, Repr

/-- Model of `log_migration_to_csv` (lines 140-166) as a pure transformation of the
ledger file contents: read the existing `source_github_url` column; append a
new row only if `source_url` is not already present, otherwise a no-op. -/
def log_migration_to_csv (ledger : List MigrationRecord)
    (source_url target_url : String) (migrated_with_workflow : Bool) :
    List MigrationRecord :=
  let existing_entries := ledger.map (fun row => row.source_github_url)
  if source_url ∈ existing_entries then ledger
  else ledger ++ [{ source_github_url := source_url, target_github_url := target_url,
                    migrated_with_workflow_file := migrated_with_workflow }]

/-- The line `log_target_repo_url` (lines 168-174) appends for a target URL:
strip the host prefix with `str.replace`, then Python `rstrip(".git")` —
which strips trailing characters drawn from the SET of the four
characters dot, g, i, t. -/
def log_target_repo_url_line (target_url : String) : String :=
  pyRstrip (pyReplace target_url "https://github.com/" "") ".git"

/-- The template-selection loop of `__main__` lines 210-219: for each tag in
order, fetch `<tag.strip()>-ci.yml`; stop at the first truthy content.
Returns the Python locals after the loop: `(ci_found, ci_content, system)`
(`system` is the last tag the loop iterated over). -/
def ci_loop (fetch : String → Option String) : List String → Bool × Option String × Option String
  | [] => (false, none, none)
  | t :: ts =>
      let c := fetch (pyStrip t)
      if truthy c then (true, c, some t)
      else if ts.isEmpty then (false, c, some t)
      else ci_loop fetch ts

/-- The tags the loop of lines 210-219 reports as misses ("does not exist in
Centralized Workflow Repository") before finding a template. -/
def ci_misses (fetch : String → Option String) : List String → List String
  | [] => []
  | t :: ts => if truthy (fetch (pyStrip t)) then [] else t :: ci_misses fetch ts

example : pyIn ".csproj" "Widgets.csproj" = true := by decide
example : pyIn "pom.xml" "README.md" = false := by decide
example : pySplit "maven, npm" ", " = ["maven", "npm"] := by decide
example : pySplit "maven" ", " = ["maven"] := by decide
example : pyRstrip "widgets.git" ".git" = "widgets" := by decide
example : pyRstrip "audit.git" ".git" = "aud" := by decide
example : pyReplace "https://github.com/a/b.git" "https://github.com/" "" = "a/b.git" := by decide
example : detect_build_systems ["README.md"] = [] := by decide
example : detect_build_systems ["pom.xml", "app.sln"] = ["maven", "dotNET_Solution"] := by decide
example : detect_language_and_build_system (some ⟨some "Java", ["README.md"]⟩)
  = (some "Java", some "No common build system detected.") := by decide
example : log_target_repo_url_line "https://github.com/capgemini-cg-demo/audit.git"
  = "capgemini-cg-demo/aud" := by decide
example : ci_loop (fun _ => none) ["No common build system detected."]
  = (false, none, some "No common build system detected.") := by decide

/-- Constant `ORG_NAME` of line 19. -/
def ORG_NAME : String := "capgemini-cg-demo"

/-- Oracle for one repository's external effects: what the GitHub API and the
`git` subprocesses would do at each effectful step of `__main__`. -/
structure Env where
  /-- Result of `g.get_repo` + `repo.get_contents("")` inside detection;
  `none` models the `except` branch of lines 84-86. -/
  repoData : Option RepoData
  /-- Whether the bare `g.get_repo(repo_name)` of line 207 succeeds
  (it is NOT wrapped in a try block). -/
  getRepoOk : Bool
  /-- Oracle for `fetch_ci_file_from_github` (lines 97-109): template content per tag,
  `none` for the caught-exception / not-found path. -/
  fetchCI : String → Option String
  /-- Whether `git clone --mirror` (line 229, `check=True`, no try) succeeds. -/
  mirrorCloneOk : Bool
  /-- Whether the working `git clone` (line 236, `check=True`, no try) succeeds. -/
  workCloneOk : Bool
  /-- Whether the CI add/commit/push block (lines 246-253, caught) succeeds. -/
  ciCommitPushOk : Bool
  /-- Whether `create_or_update_repo` (lines 111-125) returns a repo
  (it catches its own exceptions and returns `None` on failure). -/
  createOrUpdateOk : Bool
  /-- Whether the pushes in `push_branches_and_tags` (lines 127-138) succeed
  (the function catches `CalledProcessError` itself). -/
  pushOk : Bool
  /-- Whether `git gc` (line 271, `check=True`, no try) succeeds. -/
  gcOk : Bool

/-- Console-observable outcome of one repository's trip through the loop body. -/
structure RepoOutcome where
  /-- The line-284 message "Could not determine the language or build system". -/
  skippedNoLangMsg : Bool
  mirrorCloned : Bool
  workCloned : Bool
  /-- The local `ci_found`. -/
  ciFound : Bool
  /-- The workflow file written at lines 239-244: (file name, content). -/
  ciFile : Option (String × String)
  /-- Whether the CI commit/push of lines 246-253 was attempted and succeeded. -/
  ciPushed : Bool
  /-- Whether `push_branches_and_tags` was reached and its pushes succeeded. -/
  pushSucceeded : Bool
  /-- The line-281 "Failed to create or update repository" message. -/
  createFailedMsg : Bool
  /-- Tags reported as template misses by the loop of lines 210-219. -/
  templateMisses : List String
deriving DecidableEq, Repr

/-- An uncaught Python exception escaping the `for` loop of `__main__`,
carrying which step raised and the contents of the two durable log files at
that moment. -/
structure Crash where
  stage : String
  ledger : List MigrationRecord
  targetLog : List String
deriving DecidableEq, Repr

/-- Source URL built at line 263: host prefix, then the repository identifier,
then the `.git` extension. -/
def source_url_of (repo_name : String) : String :=
  "https://github.com/" ++ repo_name ++ ".git"

/-- Local repository name of line 221: the last segment of the identifier
split on slashes. -/
def local_repo_name_of (repo_name : String) : String :=
  (pySplit repo_name "/").getLastD ""

/-- Target push URL built at line 258: host prefix, the target organization,
the local repository name and the `.git` extension. -/
def target_url_of (repo_name : String) : String :=
  "https://github.com/" ++ ORG_NAME ++ "/" ++ local_repo_name_of repo_name ++ ".git"

/-- The `primary_language` half of line 201's detection result. -/
def lang_field (env : Env) : Option String :=
  (detect_language_and_build_system env.repoData).1

/-- The `build_system` half of line 201's detection result. -/
def bs_field (env : Env) : Option String :=
  (detect_language_and_build_system env.repoData).2

/-- Tag list of line 209: the detection string split on comma-space. -/
def build_system_list (env : Env) : List String :=
  pySplit ((bs_field env).getD "") ", "

/-- The `(ci_found, ci_content, system)` locals after the loop of lines 210-219. -/
def ci_result (env : Env) : Bool × Option String × Option String :=
  ci_loop env.fetchCI (build_system_list env)

/-- The local `ci_found`. -/
def ci_found_of (env : Env) : Bool := (ci_result env).1

/-- The workflow file written by lines 238-244 (`if ci_found and ci_content:`):
name built from the stripped tag followed by `-ci.yml`, content `ci_content`. -/
def ci_file_of (env : Env) : Option (String × String) :=
  if ci_found_of env && truthy (ci_result env).2.1 then
    some (pyStrip (((ci_result env).2.2).getD "") ++ "-ci.yml", ((ci_result env).2.1).getD "")
  else none

/-- The RepoOutcome assembled by `skip_outcome`'s counterpart: the else branch
of line 283-284 (guard failed: nothing cloned, fetched, or logged). -/
def skip_outcome : RepoOutcome :=
  { skippedNoLangMsg := true, mirrorCloned := false, workCloned := false,
    ciFound := false, ciFile := none, ciPushed := false, pushSucceeded := false,
    createFailedMsg := false, templateMisses := [] }

/-- One iteration of the `for repo_name in repos:` body of `__main__`
(lines 198-286), as a transformation of the two durable log files, returning
an uncaught exception as `.error`.  Step order follows the source: the
truthiness guard of line 202, `g.get_repo` (207), the template loop (209-219),
mirror clone (229), working clone (236), CI injection (238-253, soft-fail),
`create_or_update_repo` (255), `push_branches_and_tags` (259, its errors are
caught inside), ledger write (265), target-URL log (268), `git gc` (271). -/
def migrate_one (env : Env) (repo_name : String) (ledger : List MigrationRecord)
    (targetLog : List String) :
    Except Crash (List MigrationRecord × List String × RepoOutcome) :=
  if truthy (lang_field env) && truthy (bs_field env) then
    if env.getRepoOk = false then .error ⟨"get_repo", ledger, targetLog⟩
    else if env.mirrorCloneOk = false then .error ⟨"mirror clone", ledger, targetLog⟩
    else if env.workCloneOk = false then .error ⟨"working clone", ledger, targetLog⟩
    else
      let outcome : RepoOutcome :=
        { skippedNoLangMsg := false, mirrorCloned := true, workCloned := true,
          ciFound := ci_found_of env, ciFile := ci_file_of env,
          ciPushed := (ci_file_of env).isSome && env.ciCommitPushOk,
          pushSucceeded := env.createOrUpdateOk && env.pushOk,
          createFailedMsg := !env.createOrUpdateOk,
          templateMisses := ci_misses env.fetchCI (build_system_list env) }
      if env.createOrUpdateOk then
        let ledger2 := log_migration_to_csv ledger (source_url_of repo_name)
          (target_url_of repo_name) (ci_found_of env)
        let targetLog2 := targetLog ++ [log_target_repo_url_line (target_url_of repo_name)]
        if env.gcOk = false then .error ⟨"git gc", ledger2, targetLog2⟩
        else .ok (ledger2, targetLog2, outcome)
      else .ok (ledger, targetLog, outcome)
  else .ok (ledger, targetLog, skip_outcome)

/-- The whole batch loop of `__main__`: repositories processed in order, one
uncaught exception aborting the rest of the run. -/
def migrate_all (envs : String → Env) (repos : List String)
    (ledger : List MigrationRecord) (targetLog : List String) :
    Except Crash (List MigrationRecord × List String × List RepoOutcome) :=
  match repos with
  | [] => .ok (ledger, targetLog, [])
  | r :: rs =>
      match migrate_one (envs r) r ledger targetLog with
      | .error c => .error c
      | .ok (l2, t2, o) =>
          match migrate_all envs rs l2 t2 with
          | .error c => .error c
          | .ok (l3, t3, os) => .ok (l3, t3, o :: os)

/-- The detection fold appends, to its accumulator, exactly the first
components of the indicator pairs whose fragment matches some file name,
keeping map order. -/
theorem detect_foldl_eq (repo_files : List String) :
    ∀ (m : List (String × String)) (acc : List String),
      List.foldl
        (fun acc p => if repo_files.any (fun file => pyIn p.2 file) then acc ++ [p.1] else acc)
        acc m
      = acc ++ (m.filter (fun p => repo_files.any (fun file => pyIn p.2 file))).map Prod.fst := by
  intro m
  induction m with
  | nil => intro acc; simp
  | cons p m ih =>
      intro acc
      rw [List.foldl_cons, List.filter_cons]
      cases hc : repo_files.any fun file => pyIn p.2 file with
      | true =>
          rw [if_pos rfl, if_pos rfl, ih]
          simp
      | false =>
          rw [if_neg (by simp), if_neg (by simp), ih]

/-- Equation: `detect_build_systems_with` written as filter-then-project. -/
theorem detect_build_systems_with_eq (m : List (String × String)) (repo_files : List String) :
    detect_build_systems_with m repo_files
      = (m.filter (fun p => repo_files.any (fun file => pyIn p.2 file))).map Prod.fst := by
  have h := detect_foldl_eq repo_files m []
  rw [List.nil_append] at h
  exact h

/-- Membership characterization of the detection result. -/
theorem mem_detect_build_systems_with (m : List (String × String))
    (repo_files : List String) (tag : String) :
    tag ∈ detect_build_systems_with m repo_files
      ↔ ∃ ind, (tag, ind) ∈ m ∧ repo_files.any (fun file => pyIn ind file) = true := by
  rw [detect_build_systems_with_eq]
  simp only [List.mem_map, List.mem_filter]
  constructor
  · rintro ⟨⟨t, ind⟩, ⟨hm, hmatch⟩, hfst⟩
    cases hfst
    exact ⟨ind, hm, hmatch⟩
  · rintro ⟨ind, hm, hmatch⟩
    exact ⟨(tag, ind), ⟨hm, hmatch⟩, rfl⟩

/-- The success path of the loop body: when the truthiness guard holds and
every un-caught effectful step succeeds, `migrate_one` writes exactly one
ledger append attempt and one target-log line. -/
theorem migrate_one_ok_path (env : Env) (r : String) (l : List MigrationRecord)
    (t : List String)
    (hL : truthy (lang_field env) = true) (hB : truthy (bs_field env) = true)
    (hg : env.getRepoOk = true) (hm : env.mirrorCloneOk = true)
    (hw : env.workCloneOk = true) (hc : env.createOrUpdateOk = true)
    (hgc : env.gcOk = true) :
    migrate_one env r l t = .ok
      (log_migration_to_csv l (source_url_of r) (target_url_of r) (ci_found_of env),
       t ++ [log_target_repo_url_line (target_url_of r)],
       { skippedNoLangMsg := false, mirrorCloned := true, workCloned := true,
         ciFound := ci_found_of env, ciFile := ci_file_of env,
         ciPushed := (ci_file_of env).isSome && env.ciCommitPushOk,
         pushSucceeded := env.pushOk, createFailedMsg := false,
         templateMisses := ci_misses env.fetchCI (build_system_list env) }) := by
  simp [migrate_one, hL, hB, hg, hm, hw, hc, hgc]

/-- The first truthy template in the tag list wins: everything before it is a
miss, and the loop returns its content and its tag. -/
theorem ci_loop_first_hit (fetch : String → Option String) (b : String)
    (hb : truthy (fetch (pyStrip b)) = true) :
    ∀ (pre : List String), (∀ a ∈ pre, truthy (fetch (pyStrip a)) = false) →
    ∀ (post : List String),
      ci_loop fetch (pre ++ b :: post) = (true, fetch (pyStrip b), some b)
      ∧ ci_misses fetch (pre ++ b :: post) = pre := by
  intro pre
  induction pre with
  | nil =>
      intro _ post
      constructor
      · simp [ci_loop, hb]
      · simp [ci_misses, hb]
  | cons a pre ih =>
      intro hpre post
      have ha : truthy (fetch (pyStrip a)) = false := hpre a (by simp)
      have hne : (pre ++ b :: post).isEmpty = false := by
        cases pre <;> simp
      have ihx := ih (fun x hx => hpre x (by simp [hx])) post
      constructor
      · simpa [ci_loop, ha, hne] using ihx.1
      · simpa [ci_misses, ha] using ihx.2

/-- Environment for a repository with a primary language but no indicator
file at top level, all external operations succeeding. -/
def envC1 : Env :=
  { repoData := some ⟨some "Java", ["README.md"]⟩, getRepoOk := true,
    fetchCI := fun _ => none, mirrorCloneOk := true, workCloneOk := true,
    ciCommitPushOk := true, createOrUpdateOk := true, pushOk := true, gcOk := true }

/-- C1: the claim says a repository matching none of the indicator fragments
is skipped entirely (no mirror clone, no ledger row, "could not determine
build system" on the console).  The code violates this: the "none detected"
sentinel is a non-empty — hence truthy — string, so the guard
`if primary_language and build_system:` passes and the migration proceeds:
the repository is mirror-cloned, the sentinel is even used as a build-system
tag in the template loop (logged as a template miss), and a ledger row is
written with `migrated_with_workflow_file = False`.  The skip message is not
printed. -/
theorem C1_sentinel_not_treated_as_skip :
    detect_build_systems ["README.md"] = []
  ∧ detect_language_and_build_system (some ⟨some "Java", ["README.md"]⟩)
      = (some "Java", some sentinel_no_build)
  ∧ truthy (some sentinel_no_build) = true
  ∧ migrate_one envC1 "acme/widgets" [] [] = .ok
      ([⟨"https://github.com/acme/widgets.git",
         "https://github.com/capgemini-cg-demo/widgets.git", false⟩],
       ["capgemini-cg-demo/widgets"],
       { skippedNoLangMsg := false, mirrorCloned := true, workCloned := true,
         ciFound := false, ciFile := none, ciPushed := false, pushSucceeded := true,
         createFailedMsg := false,
         templateMisses := [sentinel_no_build] }) := ⟨rfl, rfl, rfl, rfl⟩

/-- C3: the migration ledger is de-duplicated by `source_github_url`: a second
`record` with the same source URL is a no-op (the first row's values survive,
no overwrite); two distinct source URLs give two rows in call order; and the
append preserves the at-most-one-row-per-source invariant. -/
theorem C3_ledger_dedup (s1 s2 t1 t1x t2 : String) (b1 b1x b2 : Bool)
    (L : List MigrationRecord) (hne : s1 ≠ s2) :
    log_migration_to_csv (log_migration_to_csv [] s1 t1 b1) s1 t1x b1x = [⟨s1, t1, b1⟩]
  ∧ log_migration_to_csv (log_migration_to_csv [] s1 t1 b1) s2 t2 b2
      = [⟨s1, t1, b1⟩, ⟨s2, t2, b2⟩]
  ∧ ((L.map (fun row => row.source_github_url)).Nodup →
      ((log_migration_to_csv L s1 t1 b1).map (fun row => row.source_github_url)).Nodup) := by
  refine ⟨by simp [log_migration_to_csv],
          by simp [log_migration_to_csv, Ne.symm hne], ?_⟩
  intro h
  by_cases hmem : s1 ∈ L.map (fun row => row.source_github_url)
  · simpa [log_migration_to_csv, hmem] using h
  · simp [log_migration_to_csv, hmem, List.nodup_append, h]

/-- Witness for C3 at concrete inputs. -/
theorem C3_ledger_dedup_witness :
    (("a" : String) ≠ "b")
  ∧ (log_migration_to_csv (log_migration_to_csv [] "a" "ta" true) "a" "tz" false
       = [⟨"a", "ta", true⟩]
  ∧ log_migration_to_csv (log_migration_to_csv [] "a" "ta" true) "b" "tb" false
       = [⟨"a", "ta", true⟩, ⟨"b", "tb", false⟩]
  ∧ ((([] : List MigrationRecord).map (fun row => row.source_github_url)).Nodup →
      ((log_migration_to_csv [] "a" "ta" true).map (fun row => row.source_github_url)).Nodup)) :=
  ⟨by decide, C3_ledger_dedup "a" "b" "ta" "tz" "tb" true false false [] (by decide)⟩

/-- C5: detection returns exactly the tags whose indicator fragment occurs as
a substring of at least one top-level file name, in the declared order of the
indicator map; matching is substring containment (e.g. `.csproj` matches
`Widgets.csproj`), and several tags can match the same repository. -/
theorem C5_detection_all_substring_matches (repo_files : List String) :
    detect_build_systems repo_files
      = (build_systems.filter (fun p => repo_files.any (fun file => pyIn p.2 file))).map Prod.fst
  ∧ (∀ tag, tag ∈ detect_build_systems repo_files
      ↔ ∃ ind, (tag, ind) ∈ build_systems ∧ ∃ file ∈ repo_files, pyIn ind file = true)
  ∧ detect_build_systems ["Widgets.csproj", "app.sln"] = ["dotNET_CS", "dotNET_Solution"] := by
  refine ⟨detect_build_systems_with_eq _ _, ?_, by decide⟩
  intro tag
  rw [detect_build_systems, mem_detect_build_systems_with]
  simp [List.any_eq_true]

/-- C7: the claim says the target-repos line is derived by stripping the host
prefix and the `.git` suffix "exactly that suffix, once".  The code instead
uses Python `rstrip(".git")`, which strips the trailing character SET
of the four characters dot, g, i, t: the claim's own `widgets` example
happens to work, but a
repository named `audit` is logged as `capgemini-cg-demo/aud`, not
`capgemini-cg-demo/audit` — the code contradicts its docstring
("in org/repo format"). -/
theorem C7_rstrip_strips_charset :
    log_target_repo_url_line "https://github.com/capgemini-cg-demo/widgets.git"
      = "capgemini-cg-demo/widgets"
  ∧ log_target_repo_url_line "https://github.com/capgemini-cg-demo/audit.git"
      = "capgemini-cg-demo/aud"
  ∧ log_target_repo_url_line "https://github.com/capgemini-cg-demo/audit.git"
      ≠ "capgemini-cg-demo/audit" := ⟨by decide, by decide, by decide⟩

/-- C8: detection is monotone in the indicator map: enlarging the map can only
enlarge the set of detected tags. -/
theorem C8_detection_monotone (F : List String) (M Msub : List (String × String))
    (hsub : ∀ p ∈ Msub, p ∈ M) :
    ∀ tag ∈ detect_build_systems_with Msub F, tag ∈ detect_build_systems_with M F := by
  intro tag htag
  rw [mem_detect_build_systems_with] at htag ⊢
  obtain ⟨ind, hmem, hmatch⟩ := htag
  exact ⟨ind, hsub _ hmem, hmatch⟩

/-- Witness for C8: the singleton maven map is a subset of the full map and
its detection result is contained in the full map's. -/
theorem C8_detection_monotone_witness :
    (∀ p ∈ [(("maven" : String), ("pom.xml" : String))], p ∈ build_systems)
  ∧ "maven" ∈ detect_build_systems_with build_systems ["pom.xml"] :=
  ⟨by decide, C8_detection_monotone ["pom.xml"] build_systems [("maven", "pom.xml")]
      (by decide) "maven" (by decide)⟩

/-- C10: when the fetched primary language is absent (`None` or `""`), the
truthiness guard of line 202 fails and the loop body does nothing but print
the skip message: no clone, no template fetch, no ledger row, no target-log
line — even if the file listing would have matched build-system indicators. -/
theorem C10_missing_language_skips (env : Env) (r : String) (l : List MigrationRecord)
    (t : List String) (lang : Option String) (files : List String)
    (hdata : env.repoData = some { language := lang, files := files })
    (hlang : truthy lang = false) :
    migrate_one env r l t = .ok (l, t, skip_outcome) := by
  have hL : truthy (lang_field env) = false := by
    simp [lang_field, detect_language_and_build_system, hdata, hlang]
  simp [migrate_one, hL]

/-- Environment for a repository with a recognized build system but no
primary language. -/
def envC10 : Env :=
  { repoData := some ⟨none, ["pom.xml"]⟩, getRepoOk := true, fetchCI := fun _ => none,
    mirrorCloneOk := true, workCloneOk := true, ciCommitPushOk := true,
    createOrUpdateOk := true, pushOk := true, gcOk := true }

/-- Witness for C10: build system recognized (`maven`) yet the repository is
skipped because the language is `None`. -/
theorem C10_missing_language_skips_witness :
    detect_build_systems ["pom.xml"] = ["maven"]
  ∧ envC10.repoData = some { language := none, files := ["pom.xml"] }
  ∧ truthy none = false
  ∧ migrate_one envC10 "acme/widgets" [] [] = .ok ([], [], skip_outcome) :=
  ⟨by decide, rfl, rfl,
   C10_missing_language_skips envC10 "acme/widgets" [] [] none ["pom.xml"] rfl rfl⟩

/-- Environment where everything succeeds except the push-all step of
`push_branches_and_tags`. -/
def envC2 : Env :=
  { repoData := some ⟨some "Java", ["pom.xml"]⟩, getRepoOk := true,
    fetchCI := fun _ => none, mirrorCloneOk := true, workCloneOk := true,
    ciCommitPushOk := true, createOrUpdateOk := true, pushOk := false, gcOk := true }

/-- C2 counterexample: the claim says a failed push-all aborts the
repository's migration with no ledger entry and no target-URL line.  In the
code `push_branches_and_tags` catches `CalledProcessError` itself, so with a
failing push the loop body still writes the ledger row AND the target-URL
line. -/
theorem C2_refuted_push_failure_still_logs :
    envC2.pushOk = false
  ∧ migrate_one envC2 "acme/widgets" [] [] = .ok
      ([⟨"https://github.com/acme/widgets.git",
         "https://github.com/capgemini-cg-demo/widgets.git", false⟩],
       ["capgemini-cg-demo/widgets"],
       { skippedNoLangMsg := false, mirrorCloned := true, workCloned := true,
         ciFound := false, ciFile := none, ciPushed := false, pushSucceeded := false,
         createFailedMsg := false, templateMisses := ["maven"] }) := ⟨rfl, rfl⟩

/-- C2 amended: a push-all failure is caught and logged inside
`push_branches_and_tags`; the migration of that repository is NOT aborted —
the ledger append and the target-URL line still happen — and the batch loop
proceeds to the next repository identifier. -/
theorem C2_push_failure_is_soft (env : Env) (r : String) (l : List MigrationRecord)
    (t : List String)
    (hL : truthy (lang_field env) = true) (hB : truthy (bs_field env) = true)
    (hg : env.getRepoOk = true) (hm : env.mirrorCloneOk = true)
    (hw : env.workCloneOk = true) (hc : env.createOrUpdateOk = true)
    (hgc : env.gcOk = true) (hp : env.pushOk = false) :
    ∃ o : RepoOutcome,
      migrate_one env r l t = .ok
        (log_migration_to_csv l (source_url_of r) (target_url_of r) (ci_found_of env),
         t ++ [log_target_repo_url_line (target_url_of r)], o)
    ∧ o.pushSucceeded = false
    ∧ ∀ (envs : String → Env) (rs : List String), envs r = env →
        migrate_all envs (r :: rs) l t
          = (migrate_all envs rs
              (log_migration_to_csv l (source_url_of r) (target_url_of r) (ci_found_of env))
              (t ++ [log_target_repo_url_line (target_url_of r)])).map
              (fun x => (x.1, x.2.1, x.2.2.cons
                { skippedNoLangMsg := false, mirrorCloned := true, workCloned := true,
                  ciFound := ci_found_of env, ciFile := ci_file_of env,
                  ciPushed := (ci_file_of env).isSome && env.ciCommitPushOk,
                  pushSucceeded := env.pushOk, createFailedMsg := false,
                  templateMisses := ci_misses env.fetchCI (build_system_list env) })) := by
  have hpath := migrate_one_ok_path env r l t hL hB hg hm hw hc hgc
  refine ⟨_, hpath, hp, ?_⟩
  intro envs rs he
  simp only [migrate_all, he, hpath]
  cases hrec : migrate_all envs rs
      (log_migration_to_csv l (source_url_of r) (target_url_of r) (ci_found_of env))
      (t ++ [log_target_repo_url_line (target_url_of r)]) with
  | error c => simp [Except.map]
  | ok v => simp [Except.map]

/-- Witness for C2's amended statement at the concrete failing-push
environment. -/
theorem C2_push_failure_is_soft_witness :
    envC2.pushOk = false
  ∧ ∃ o : RepoOutcome,
      migrate_one envC2 "acme/widgets" [] [] = .ok
        (log_migration_to_csv [] (source_url_of "acme/widgets")
           (target_url_of "acme/widgets") (ci_found_of envC2),
         [] ++ [log_target_repo_url_line (target_url_of "acme/widgets")], o)
    ∧ o.pushSucceeded = false
    ∧ ∀ (envs : String → Env) (rs : List String), envs "acme/widgets" = envC2 →
        migrate_all envs ("acme/widgets" :: rs) [] []
          = (migrate_all envs rs
              (log_migration_to_csv [] (source_url_of "acme/widgets")
                (target_url_of "acme/widgets") (ci_found_of envC2))
              ([] ++ [log_target_repo_url_line (target_url_of "acme/widgets")])).map
              (fun x => (x.1, x.2.1, x.2.2.cons
                { skippedNoLangMsg := false, mirrorCloned := true, workCloned := true,
                  ciFound := ci_found_of envC2, ciFile := ci_file_of envC2,
                  ciPushed := (ci_file_of envC2).isSome && envC2.ciCommitPushOk,
                  pushSucceeded := envC2.pushOk, createFailedMsg := false,
                  templateMisses := ci_misses envC2.fetchCI (build_system_list envC2) })) :=
  ⟨rfl, C2_push_failure_is_soft envC2 "acme/widgets" [] [] rfl rfl rfl rfl rfl rfl rfl rfl⟩

/-- Environment whose mirror clone fails; everything before it succeeds. -/
def envC4bad : Env :=
  { repoData := some ⟨some "Java", ["pom.xml"]⟩, getRepoOk := true,
    fetchCI := fun _ => none, mirrorCloneOk := false, workCloneOk := true,
    ciCommitPushOk := true, createOrUpdateOk := true, pushOk := true, gcOk := true }

/-- Environment where every step succeeds (no template available). -/
def envC4good : Env :=
  { repoData := some ⟨some "Java", ["pom.xml"]⟩, getRepoOk := true,
    fetchCI := fun _ => none, mirrorCloneOk := true, workCloneOk := true,
    ciCommitPushOk := true, createOrUpdateOk := true, pushOk := true, gcOk := true }

/-- Batch oracle: `acme/alpha`'s mirror clone fails, `acme/beta` is fine. -/
def envsC4 : String → Env := fun r => if r = "acme/alpha" then envC4bad else envC4good

/-- C4 counterexample: the claim says a mirror-clone or working-clone failure
is caught by the Orchestrator, which continues with the next repository and
never crashes the batch.  In the code the two `git clone` subprocess calls
(`check=True`) are not wrapped in any try block, so the exception escapes the
`for` loop: the whole run aborts, and `acme/beta` — which on its own would
migrate fine — is never processed. -/
theorem C4_refuted_clone_failure_crashes_batch :
    (envsC4 "acme/alpha").mirrorCloneOk = false
  ∧ migrate_all envsC4 ["acme/alpha", "acme/beta"] [] []
      = .error ⟨"mirror clone", [], []⟩
  ∧ migrate_all envsC4 ["acme/beta"] [] [] = .ok
      ([⟨"https://github.com/acme/beta.git",
         "https://github.com/capgemini-cg-demo/beta.git", false⟩],
       ["capgemini-cg-demo/beta"],
       [{ skippedNoLangMsg := false, mirrorCloned := true, workCloned := true,
          ciFound := false, ciFile := none, ciPushed := false, pushSucceeded := true,
          createFailedMsg := false, templateMisses := ["maven"] }]) := ⟨rfl, rfl, rfl⟩

/-- C4 amended: a mirror-clone or working-clone failure is fatal for the
whole run, not just for that repository: the uncaught subprocess error aborts
the batch loop, leaving the log files as they were, and the remaining
repository identifiers are never processed. -/
theorem C4_clone_failure_aborts_whole_run (env : Env) (r : String) (rs : List String)
    (envs : String → Env) (l : List MigrationRecord) (t : List String)
    (hL : truthy (lang_field env) = true) (hB : truthy (bs_field env) = true)
    (hg : env.getRepoOk = true) (he : envs r = env) :
    (env.mirrorCloneOk = false →
      migrate_all envs (r :: rs) l t = .error ⟨"mirror clone", l, t⟩)
  ∧ (env.mirrorCloneOk = true → env.workCloneOk = false →
      migrate_all envs (r :: rs) l t = .error ⟨"working clone", l, t⟩) := by
  constructor
  · intro hmf
    simp [migrate_all, he, migrate_one, hL, hB, hg, hmf]
  · intro hmt hwf
    simp [migrate_all, he, migrate_one, hL, hB, hg, hmt, hwf]

/-- Witness for C4's amended statement at the concrete environments. -/
theorem C4_clone_failure_aborts_whole_run_witness :
    truthy (lang_field envC4bad) = true
  ∧ envC4bad.mirrorCloneOk = false
  ∧ migrate_all envsC4 ("acme/alpha" :: ["acme/beta"]) [] []
      = .error ⟨"mirror clone", [], []⟩ :=
  ⟨rfl, rfl,
   (C4_clone_failure_aborts_whole_run envC4bad "acme/alpha" ["acme/beta"] envsC4 [] []
      rfl rfl rfl rfl).1 rfl⟩

/-- C6: the Orchestrator's template loop tries the detected tags in order and
the first truthy template wins: everything before it is logged as a miss, the
loop returns exactly that template's content (no merging), and the injected
workflow file is named after that tag with that content. -/
theorem C6_first_template_wins (fetch : String → Option String) (pre post : List String)
    (b : String)
    (hpre : ∀ a ∈ pre, truthy (fetch (pyStrip a)) = false)
    (hb : truthy (fetch (pyStrip b)) = true) :
    ci_loop fetch (pre ++ b :: post) = (true, fetch (pyStrip b), some b)
  ∧ ci_misses fetch (pre ++ b :: post) = pre
  ∧ ∀ env : Env, env.fetchCI = fetch → build_system_list env = pre ++ b :: post →
      ci_file_of env = some (pyStrip b ++ "-ci.yml", (fetch (pyStrip b)).getD "") := by
  obtain ⟨h1, h2⟩ := ci_loop_first_hit fetch b hb pre hpre post
  refine ⟨h1, h2, ?_⟩
  intro env hf hbs
  unfold ci_file_of ci_found_of ci_result
  rw [hf, hbs, h1]
  cases hcontent : fetch (pyStrip b) with
  | none => rw [hcontent] at hb; simp [truthy] at hb
  | some c => simp [hcontent ▸ hb]

/-- Witness for C6: detection returns `[npm, yarn]`, only `yarn` has a
template; `yarn`'s template is selected and injected, `npm` is a miss. -/
def envC6 : Env :=
  { repoData := some ⟨some "JavaScript", ["package.json", "yarn.lock"]⟩, getRepoOk := true,
    fetchCI := fun tag => if tag = "yarn" then some "yarn-template" else none,
    mirrorCloneOk := true, workCloneOk := true, ciCommitPushOk := true,
    createOrUpdateOk := true, pushOk := true, gcOk := true }

/-- Witness for C6 at `envC6`. -/
theorem C6_first_template_wins_witness :
    build_system_list envC6 = ["npm"] ++ "yarn" :: []
  ∧ (∀ a ∈ ["npm"], truthy (envC6.fetchCI (pyStrip a)) = false)
  ∧ truthy (envC6.fetchCI (pyStrip "yarn")) = true
  ∧ (ci_loop envC6.fetchCI (["npm"] ++ "yarn" :: [])
       = (true, envC6.fetchCI (pyStrip "yarn"), some "yarn")
  ∧ ci_misses envC6.fetchCI (["npm"] ++ "yarn" :: []) = ["npm"]
  ∧ ∀ env : Env, env.fetchCI = envC6.fetchCI →
      build_system_list env = ["npm"] ++ "yarn" :: [] →
      ci_file_of env = some (pyStrip "yarn" ++ "-ci.yml",
        (envC6.fetchCI (pyStrip "yarn")).getD "")) :=
  ⟨by decide, by decide, by decide,
   C6_first_template_wins envC6.fetchCI ["npm"] [] "yarn" (by decide) (by decide)⟩

/-- C9: the ledger field `migrated_with_workflow_file` records `ci_found`
(template located), not whether the CI commit/push of lines 246-253 actually
succeeded: with a found template and a failing CI push (soft-fail), the
ledger row still says `True`. -/
theorem C9_ledger_records_found_not_pushed (env : Env) (r : String)
    (l : List MigrationRecord) (t : List String)
    (hL : truthy (lang_field env) = true) (hB : truthy (bs_field env) = true)
    (hg : env.getRepoOk = true) (hm : env.mirrorCloneOk = true)
    (hw : env.workCloneOk = true) (hc : env.createOrUpdateOk = true)
    (hgc : env.gcOk = true)
    (hfound : ci_found_of env = true)
    (hcp : env.ciCommitPushOk = false)
    (hnew : source_url_of r ∉ l.map (fun row => row.source_github_url)) :
    ∃ (tl : List String) (o : RepoOutcome),
      migrate_one env r l t = .ok
        (l ++ [{ source_github_url := source_url_of r, target_github_url := target_url_of r,
                 migrated_with_workflow_file := true }], tl, o)
    ∧ o.ciPushed = false ∧ o.ciFound = true := by
  have hpath := migrate_one_ok_path env r l t hL hB hg hm hw hc hgc
  rw [hfound] at hpath
  have hlog : log_migration_to_csv l (source_url_of r) (target_url_of r) true
      = l ++ [{ source_github_url := source_url_of r, target_github_url := target_url_of r,
                migrated_with_workflow_file := true }] := by
    simp [log_migration_to_csv, hnew]
  rw [hlog] at hpath
  exact ⟨_, _, hpath, by simp [hcp], rfl⟩

/-- Environment with a maven template found but a failing CI commit/push. -/
def envC9 : Env :=
  { repoData := some ⟨some "Java", ["pom.xml"]⟩, getRepoOk := true,
    fetchCI := fun tag => if tag = "maven" then some "maven-template" else none,
    mirrorCloneOk := true, workCloneOk := true, ciCommitPushOk := false,
    createOrUpdateOk := true, pushOk := true, gcOk := true }

/-- Witness for C9 at `envC9`. -/
theorem C9_ledger_records_found_not_pushed_witness :
    ci_found_of envC9 = true
  ∧ envC9.ciCommitPushOk = false
  ∧ ∃ (tl : List String) (o : RepoOutcome),
      migrate_one envC9 "acme/widgets" [] [] = .ok
        ([] ++ [{ source_github_url := source_url_of "acme/widgets",
                  target_github_url := target_url_of "acme/widgets",
                  migrated_with_workflow_file := true }], tl, o)
    ∧ o.ciPushed = false ∧ o.ciFound = true :=
  ⟨rfl, rfl,
   C9_ledger_records_found_not_pushed envC9 "acme/widgets" [] []
     rfl rfl rfl rfl rfl rfl rfl rfl rfl (by decide)⟩
